import Mathlib

/-!
# Verification of the CadSentinel ingestion-to-retrieval core

A shallow embedding, in Lean 4, of the core pipeline of the CadSentinel
repository: the embedding-provider abstraction (`app/services/embeddings.py`),
the drawing ETL (`app/services/etl_dwg.py`), vector and hybrid retrieval
(`app/services/drawing_search.py`) and chat context assembly
(`app/services/chat_drawing.py`).  Pure computations are translated as Lean
functions; database state is explicit (`DB` records holding row lists);
external collaborators (embedding backends, the summarizer, the answering
model, SQL similarity operators) are parameters of the embedded functions.
Floating-point scores are modelled over `ℚ`.
-/

namespace CadSentinel

/-! ## String helpers

Python's `str.lower`, substring test (`needle in hay`), and `str.strip`,
modelled over `String` via its character list. -/

/-- Python `str.lower()` (character-wise lowering). -/
def lowerStr (s : String) : String := ⟨s.data.map Char.toLower⟩

/-- `needle.isPrefixOf`-based substring test: Python `needle in hay`. -/
def strContains (hay needle : String) : Bool :=
  hay.data.tails.any (fun t => needle.data.isPrefixOf t)

/-- Python `any(tok in raw for tok in toks)`. -/
def containsAnyTok (hay : String) (toks : List String) : Bool :=
  toks.any (fun tok => strContains hay tok)

/-- Python `str.strip()` (whitespace from both ends). -/
def stripStr (s : String) : String :=
  ⟨(s.data.dropWhile Char.isWhitespace).reverse.dropWhile Char.isWhitespace |>.reverse⟩

/-! ## A stable descending sort by a rational key

`list.sort(key=..., reverse=True)` in Python is a stable sort placing larger
keys first.  `insertDesc`/`sortByDesc` reproduce that: an element is inserted
before the first strictly-smaller key, so equal keys keep their original
relative order. -/

/-- Insert `a` before the first element whose key is strictly below `key a`. -/
def insertDesc (key : α → ℚ) (a : α) : List α → List α
  | [] => [a]
  | b :: l => if key b < key a then a :: b :: l else b :: insertDesc key a l

/-- Stable sort, larger keys first (Python `sort(key=..., reverse=True)`). -/
def sortByDesc (key : α → ℚ) : List α → List α
  | [] => []
  | a :: l => insertDesc key a (sortByDesc key l)

/-! ## Retrieval engine (`app/services/drawing_search.py`)

The SQL layer supplies, per `Embedding` row, the pgvector cosine similarity
`1 - cosine_distance` (and, in hybrid mode, the pg_trgm keyword similarity,
which can be SQL `NULL`).  Those externally computed scores are carried on
the candidate records; ordering, thresholding, truncation and fusion are the
code under verification. -/

/-- A persisted `Embedding` row (`app/db/models.py`): the chunk text, its
provenance, and the stored vector. -/
structure EmbedRow where
  id : Nat
  drawingVersionId : Nat
  sourceType : String
  sourceRefId : Option Nat
  content : String
  embedding : List ℚ
  modelName : String
  deriving DecidableEq, Repr

/-- Optional search filters (`ChunkSearchFilters`). -/
structure ChunkSearchFilters where
  drawingVersionId : Option Nat
  sourceTypes : Option (List String)
  deriving DecidableEq, Repr

/-- WHERE clause: version filter and `source_type IN (...)` filter. -/
def matchesFilters (f : Option ChunkSearchFilters) (r : EmbedRow) : Bool :=
  match f with
  | none => true
  | some fl =>
      (match fl.drawingVersionId with
       | none => true
       | some vid => r.drawingVersionId == vid) &&
      (match fl.sourceTypes with
       | none => true
       | some sts => sts.contains r.sourceType)

/-- A vector-search candidate: a row plus its SQL-computed similarity. -/
structure VecCand where
  row : EmbedRow
  similarity : ℚ
  deriving DecidableEq, Repr

/-- A hybrid-search candidate: SQL-computed vector and (nullable) keyword
similarity. -/
structure HybridCand where
  row : EmbedRow
  vectorScore : ℚ
  keywordScore : Option ℚ
  deriving DecidableEq, Repr

/-- `VectorSearchRequest` (query text is consumed by the embedding call,
which only produces the per-row similarity; it is not needed here). -/
structure VectorSearchReq where
  filters : Option ChunkSearchFilters
  topK : Nat
  scoreThreshold : Option ℚ
  deriving DecidableEq, Repr

/-- `HybridSearchRequest`. -/
structure HybridSearchReq where
  filters : Option ChunkSearchFilters
  topK : Nat
  scoreThreshold : Option ℚ
  alpha : ℚ
  deriving DecidableEq, Repr

/-- One search hit (`ChunkSearchResult`; enrichment fields omitted here,
they are resolved by the shared enrichment helpers). -/
structure ChunkResult where
  id : Nat
  matchedText : String
  sourceType : String
  drawingVersionId : Nat
  sourceRefId : Option Nat
  similarityScore : ℚ
  deriving DecidableEq, Repr

/-- Build a `ChunkResult` from a row and a score. -/
def mkChunkResult (r : EmbedRow) (score : ℚ) : ChunkResult :=
  ⟨r.id, r.content, r.sourceType, r.drawingVersionId, r.sourceRefId, score⟩

/-- `vector_search_embeddings`: the SQL statement orders by cosine distance
ascending (= similarity descending) and applies `LIMIT top_k`; the Python
loop then drops rows below `score_threshold` while preserving order. -/
def vectorSearch (db : List VecCand) (req : VectorSearchReq) : List ChunkResult :=
  let filtered := db.filter (fun c => matchesFilters req.filters c.row)
  let ordered := sortByDesc (fun c => c.similarity) filtered
  let limited := ordered.take req.topK
  (limited.filter (fun c =>
      match req.scoreThreshold with
      | none => true
      | some t => !(c.similarity < t))).map
    (fun c => mkChunkResult c.row c.similarity)

/-- `fused = req.alpha * v + (1.0 - req.alpha) * k` with
`k = float(keyword_score or 0.0)` (SQL NULL scored as `0.0`). -/
def fusedScore (alpha : ℚ) (c : HybridCand) : ℚ :=
  alpha * c.vectorScore + (1 - alpha) * c.keywordScore.getD 0

/-- The Python fusion stage of `hybrid_search_embeddings`: score each fetched
candidate, drop fused scores below the threshold, sort by fused score
descending, truncate to `top_k`. -/
def fuseRank (alpha : ℚ) (thr : Option ℚ) (topK : Nat) (cands : List HybridCand) :
    List (HybridCand × ℚ) :=
  let kept := (cands.map (fun c => (c, fusedScore alpha c))).filter
    (fun p => match thr with
              | none => true
              | some t => !(p.2 < t))
  (sortByDesc (fun p => p.2) kept).take topK

/-- `hybrid_search_embeddings`: filter candidates, over-fetch `top_k * 3`
(in SQL scan order), fuse-rank in Python, return results. -/
def hybridSearch (db : List HybridCand) (req : HybridSearchReq) : List ChunkResult :=
  let filtered := db.filter (fun c => matchesFilters req.filters c.row)
  let cands := filtered.take (req.topK * 3)
  (fuseRank req.alpha req.scoreThreshold req.topK cands).map
    (fun p => mkChunkResult p.1.row p.2)

/-- Ranking of a fixed candidate set by vector score alone (the spec's
"pure-vector ranking", for comparison with `fuseRank`). -/
def pureVectorRank (thr : Option ℚ) (topK : Nat) (cands : List HybridCand) :
    List (HybridCand × ℚ) :=
  let kept := (cands.map (fun c => (c, c.vectorScore))).filter
    (fun p => match thr with
              | none => true
              | some t => !(p.2 < t))
  (sortByDesc (fun p => p.2) kept).take topK

/-- Ranking of a fixed candidate set by keyword score alone (the spec's
"pure-keyword ranking", NULL read as `0.0` as in the code). -/
def pureKeywordRank (thr : Option ℚ) (topK : Nat) (cands : List HybridCand) :
    List (HybridCand × ℚ) :=
  let kept := (cands.map (fun c => (c, c.keywordScore.getD 0))).filter
    (fun p => match thr with
              | none => true
              | some t => !(p.2 < t))
  (sortByDesc (fun p => p.2) kept).take topK

/-- Replacing a SQL-NULL keyword similarity by `0.0` on a candidate. -/
def normalizeKeyword (c : HybridCand) : HybridCand :=
  { c with keywordScore := some (c.keywordScore.getD 0) }

/-! ## Embedding provider abstraction (`app/services/embeddings.py`)

`embed_texts` dispatches on the provider implied by the global security mode
(`app/services/security_mode.py`): `secure → ollama`, `not_secure → openai`.
Backends are modelled as oracles; alongside the returned value each embedded
function reports how many backend HTTP calls it made, so that "the backend
was never contacted" is a provable statement.  Vector components are `ℚ`. -/

/-- The process-wide security mode (`SecurityMode = "secure" | "not_secure"`). -/
inductive SecurityMode where
  | secure
  | notSecure
  deriving DecidableEq, Repr

/-- `get_effective_providers()["embedding"]` as a function of the mode. -/
def effectiveEmbeddingProvider : SecurityMode → String
  | .secure => "ollama"
  | .notSecure => "openai"

/-- The Ollama connection settings consulted by `_embed_ollama`
(`settings.ollama_base_url`, `settings.ollama_embedding_model`; unset or
empty values are falsy in the Python checks). -/
structure OllamaSettings where
  baseUrl : Option String
  embeddingModel : Option String
  deriving DecidableEq, Repr

/-- Python truthiness of an optional string setting. -/
def settingTruthy (o : Option String) : Bool := !(o.getD "").isEmpty

/-- `_embed_openai`: on an empty batch return `[]` (no API call); otherwise
one `embeddings.create` call whose vectors are returned unchanged — the
dimension sanity check in the source is a no-op (`pass`). -/
def embedOpenai (backend : List String → List (List ℚ)) (texts : List String) :
    List (List ℚ) × Nat :=
  if texts.isEmpty then ([], 0) else (backend texts, 1)

/-- The per-text request loop of `_embed_ollama`: one HTTP call per text,
stopping with a `RuntimeError` on a malformed response (`none`). -/
def ollamaLoop (backend : String → Option (List ℚ)) :
    List String → Except String (List (List ℚ)) × Nat
  | [] => (.ok [], 0)
  | t :: ts =>
      match backend t with
      | none => (.error "Unexpected Ollama embeddings response format.", 1)
      | some v =>
          let r := ollamaLoop backend ts
          (r.1.map (fun vs => v :: vs), r.2 + 1)

/-- `_embed_ollama`: empty batch short-circuits to `[]` before any
configuration check or HTTP call; missing configuration raises. -/
def embedOllama (cfg : OllamaSettings) (backend : String → Option (List ℚ))
    (texts : List String) : Except String (List (List ℚ)) × Nat :=
  if texts.isEmpty then (.ok [], 0)
  else if !(settingTruthy cfg.baseUrl) || !(settingTruthy cfg.embeddingModel) then
    (.error "Ollama embedding provider selected but OLLAMA_BASE_URL or OLLAMA_EMBEDDING_MODEL is not configured.", 0)
  else ollamaLoop backend texts

/-- `embed_texts`: dispatch to the backend selected by the security mode.
The result pairs the outcome with the number of backend calls made. -/
def embedTexts (mode : SecurityMode) (cfg : OllamaSettings)
    (openaiBackend : List String → List (List ℚ))
    (ollamaBackend : String → Option (List ℚ))
    (texts : List String) : Except String (List (List ℚ)) × Nat :=
  let provider := lowerStr (effectiveEmbeddingProvider mode)
  if provider = "openai" then
    let r := embedOpenai openaiBackend texts
    (.ok r.1, r.2)
  else if provider = "ollama" then
    embedOllama cfg ollamaBackend texts
  else (.error "Unsupported embedding provider", 0)

/-- `EMBEDDING_DIM`: `getattr(settings, "embedding_dim", 1536)`; the
`Embedding.embedding` column is declared `Vector(1536)`. -/
def EMBEDDING_DIM : Nat := 1536

/-! ## ETL data model (`app/db/models.py`, as used by `app/services/etl_dwg.py`)

Rows are Lean structures; the database is a record of row lists plus an id
allocator and a clock supplying `ingested_at` timestamps.  `db.add` becomes
list append; SQLAlchemy `delete`/`update` become `filter`/`map`.  Primary
keys are drawn from the shared allocator (their concrete numbering is
opaque; only identity and linkage matter). -/

/-- One record of the parsed-JSON `entities[]` array consumed by
`_extract_dimensions_and_notes`.  Numeric/structured payloads (`value`,
`geometry`) are carried as opaque strings. -/
structure Entity where
  etype : Option String
  rawType : Option String
  layer : Option String
  handle : Option String
  ownerHandle : Option String
  text : Option String
  value : Option String
  units : Option String
  geometry : Option String
  index : Option Nat
  deriving DecidableEq, Repr

/-- The data columns of a `Dimension` row (id and owning version aside). -/
structure DimData where
  jsonIndex : Option Nat
  dimType : Option String
  rawTypeCode : Option String
  layer : Option String
  handle : Option String
  ownerHandle : Option String
  dimText : Option String
  dimValue : Option String
  units : Option String
  geometry : Option String
  deriving DecidableEq, Repr

/-- The data columns of a `Note` row. -/
structure NoteData where
  jsonIndex : Option Nat
  noteType : String
  text : String
  layer : Option String
  handle : Option String
  geometry : Option String
  deriving DecidableEq, Repr

/-- A persisted `Dimension` row. -/
structure DimRow where
  id : Nat
  drawingVersionId : Nat
  data : DimData
  deriving DecidableEq, Repr

/-- A persisted `Note` row. -/
structure NoteRow where
  id : Nat
  drawingVersionId : Nat
  data : NoteData
  deriving DecidableEq, Repr

/-- The summarizer collaborator's output consumed by step 5 of the ETL. -/
structure SummaryOutput where
  structuredSummary : String
  longFormDescription : String
  shortDescription : Option String
  modelName : String
  deriving DecidableEq, Repr

/-- A persisted `DrawingSummary` row (`prompt_version="1.0"`). -/
structure SummaryRow where
  id : Nat
  drawingVersionId : Nat
  data : SummaryOutput
  promptVersion : String
  deriving DecidableEq, Repr

/-- A persisted `Drawing` row. -/
structure DrawingRow where
  id : Nat
  documentIdSha : String
  deriving DecidableEq, Repr

/-- A persisted `DrawingVersion` row. -/
structure VersionRow where
  id : Nat
  drawingId : Nat
  dwgSha256 : String
  isActive : Bool
  sourceFilename : String
  ingestedAt : Nat
  deriving DecidableEq, Repr

/-- A persisted `DrawingFile` row. -/
structure FileRow where
  drawingVersionId : Nat
  fileType : String
  filePath : String
  mimeType : String
  deriving DecidableEq, Repr

/-- The database state touched by the ETL, search and chat services. -/
structure DB where
  drawings : List DrawingRow
  versions : List VersionRow
  files : List FileRow
  dims : List DimRow
  notes : List NoteRow
  summaries : List SummaryRow
  embeds : List EmbedRow
  nextId : Nat
  clock : Nat
  deriving DecidableEq, Repr

/-- The empty database. -/
def db0 : DB := ⟨[], [], [], [], [], [], [], 0, 0⟩

/-- `_guess_mime`. -/
def guessMime (fileType : String) : String :=
  if fileType = "dwg" then "application/acad"
  else if fileType = "dxf" then "application/dxf"
  else if fileType = "pdf" then "application/pdf"
  else if "png".data.isPrefixOf fileType.data then "image/png"
  else if fileType = "json" then "application/json"
  else "application/octet-stream"

/-- `_infer_note_type`: scan the lowered raw text for tolerance markers,
then GD&T markers. -/
def inferNoteType (ent : Entity) : String :=
  let rawText := lowerStr (ent.text.getD "")
  if containsAnyTok rawText ["±", "tolerance", "tol"] then "tolerance"
  else if containsAnyTok rawText ["⌀", "gd&t", "true position", "flatness"] then "gdandt"
  else "general"

/-- The per-entity classification step of the
`_extract_dimensions_and_notes` loop: `"dim" in ent_type` builds a
`Dimension`, else `"text" in ent_type` builds a `Note`, else nothing. -/
def classifyEntity (ent : Entity) : Option (DimData ⊕ NoteData) :=
  let entType := lowerStr (ent.etype.getD "")
  if strContains entType "dim" then
    some (.inl ⟨ent.index, ent.etype, ent.rawType, ent.layer, ent.handle,
                ent.ownerHandle, ent.text, ent.value, ent.units, ent.geometry⟩)
  else if strContains entType "text" then
    some (.inr ⟨ent.index, inferNoteType ent, ent.text.getD "", ent.layer,
                ent.handle, ent.geometry⟩)
  else none

/-- The `Dimension` rows (data only, in entity order) produced by
`_extract_dimensions_and_notes`. -/
def extractDims (entities : List Entity) : List DimData :=
  entities.filterMap (fun e =>
    match classifyEntity e with
    | some (.inl d) => some d
    | _ => none)

/-- The `Note` rows (data only, in entity order) produced by
`_extract_dimensions_and_notes`. -/
def extractNotes (entities : List Entity) : List NoteData :=
  entities.filterMap (fun e =>
    match classifyEntity e with
    | some (.inr n) => some n
    | _ => none)

/-- Attach primary keys and the owning version to extracted dimensions. -/
def attachDims (vid : Nat) : Nat → List DimData → List DimRow
  | _, [] => []
  | n, d :: l => ⟨n, vid, d⟩ :: attachDims vid (n + 1) l

/-- Attach primary keys and the owning version to extracted notes. -/
def attachNotes (vid : Nat) : Nat → List NoteData → List NoteRow
  | _, [] => []
  | n, d :: l => ⟨n, vid, d⟩ :: attachNotes vid (n + 1) l

/-- Python truthiness of an optional string column. -/
def truthy (o : Option String) : Bool := !(o.getD "").isEmpty

/-- The embeddable text of a `Dimension`:
`"".join(parts).strip()` with parts `dim_text`, `"= {value}"`, `" {units}"`,
each included under the source's condition. -/
def dimChunkText (d : DimData) : String :=
  stripStr ((if truthy d.dimText then d.dimText.getD "" else "") ++
    (match d.dimValue with
     | some v => "= " ++ v
     | none => "") ++
    (if truthy d.units then " " ++ d.units.getD "" else ""))

/-- One embeddable worklist item: `(source_type, source_ref_id, text)`. -/
structure Piece where
  sourceType : String
  sourceRefId : Nat
  text : String
  deriving DecidableEq, Repr

/-- The ordered embeddable worklist of `_generate_all_embeddings`:
long-form summary, short summary when present and non-empty, every
dimension with non-empty rendered text, every note whose stripped text is
non-empty. -/
def contentPieces (srow : SummaryRow) (dims : List DimRow) (notes : List NoteRow) :
    List Piece :=
  (if truthy (some srow.data.longFormDescription) then
     [⟨"summary", srow.id, srow.data.longFormDescription⟩] else []) ++
  (if truthy srow.data.shortDescription then
     [⟨"summary_short", srow.id, srow.data.shortDescription.getD ""⟩] else []) ++
  dims.filterMap (fun d =>
    let t := dimChunkText d.data
    if t.isEmpty then none else some ⟨"dimension", d.id, t⟩) ++
  notes.filterMap (fun n =>
    if truthy (some n.data.text) then
      if truthy (some (stripStr n.data.text)) then
        some ⟨"note", n.id, stripStr n.data.text⟩
      else none
    else none)

/-- `EMBEDDING_MODEL` (resolved from runtime settings at import time; its
concrete value is environment-dependent and opaque to this development). -/
def EMBEDDING_MODEL : String := "embedding-model"

/-- Zip worklist items with the provider's vectors into `Embedding` rows. -/
def mkEmbedRows (vid : Nat) : Nat → List Piece → List (List ℚ) → List EmbedRow
  | n, p :: ps, v :: vs =>
      ⟨n, vid, p.sourceType, some p.sourceRefId, p.text, v, EMBEDDING_MODEL⟩ ::
        mkEmbedRows vid (n + 1) ps vs
  | _, _, _ => []

/-- `_generate_all_embeddings`: query this version's dimensions and notes,
build the worklist, embed it in one batch, and on a count mismatch skip
embeddings for this version (log a warning and return 0) — no exception is
raised.  Returns the rows to insert and `embeddings_created`. -/
def generateAllEmbeddings (provider : List String → List (List ℚ)) (db : DB)
    (vid : Nat) (srow : SummaryRow) : List EmbedRow × Nat :=
  let dimRows := db.dims.filter (fun d => d.drawingVersionId == vid)
  let noteRows := db.notes.filter (fun n => n.drawingVersionId == vid)
  let pieces := contentPieces srow dimRows noteRows
  if pieces.isEmpty then ([], 0)
  else
    let vectors := provider (pieces.map (fun p => p.text))
    if vectors.length ≠ pieces.length then ([], 0)
    else (mkEmbedRows vid db.nextId pieces vectors, pieces.length)

/-- The inputs of one `run_drawing_etl` call.  `documentId` is the SHA-256
of the uploaded DWG (`compute_document_id`); the same value keys both the
`Drawing` (`document_id_sha`) and the `DrawingVersion` (`dwg_sha256`). -/
structure EtlArgs where
  documentId : String
  sourceFilename : String
  entities : List Entity
  summaryOut : SummaryOutput
  dwgPath : String
  dxfPath : String
  jsonPath : String
  pdfPath : Option String
  pngPath : Option String
  thumbnailPath : Option String
  deriving DecidableEq, Repr

/-- `ETLResult`. -/
structure ETLResult where
  drawingId : Nat
  drawingVersionId : Nat
  numDimensions : Nat
  numNotes : Nat
  summaryId : Option Nat
  numEmbeddings : Nat
  deriving DecidableEq, Repr

/-- `run_drawing_etl`: the whole committed transaction as one state
transition.  Step order follows the source: resolve/create `Drawing`;
find (re-ingest: reactivate and delete derived children) or create
(deactivating the drawing's active versions) the `DrawingVersion`; register
files; extract and insert dimensions and notes; insert the summary row;
generate embeddings (count mismatch ⇒ zero embeddings, no error); commit. -/
def runDrawingEtl (provider : List String → List (List ℚ)) (db : DB)
    (a : EtlArgs) : DB × ETLResult :=
  -- 1. Ensure Drawing exists
  let step1 : DrawingRow × DB :=
    match db.drawings.find? (fun d => d.documentIdSha == a.documentId) with
    | some d => (d, db)
    | none =>
        let d : DrawingRow := ⟨db.nextId, a.documentId⟩
        (d, { db with drawings := db.drawings ++ [d], nextId := db.nextId + 1 })
  let drawing := step1.1
  let db1 := step1.2
  -- 2. Find or create DrawingVersion for this dwg_sha256
  let step2 : VersionRow × DB :=
    match db1.versions.find? (fun v => v.dwgSha256 == a.documentId) with
    | some v0 =>
        let v := { v0 with isActive := true, sourceFilename := a.sourceFilename }
        (v, { db1 with
                versions := db1.versions.map (fun w => if w.id == v0.id then v else w),
                files := db1.files.filter (fun f => !(f.drawingVersionId == v0.id)),
                dims := db1.dims.filter (fun d => !(d.drawingVersionId == v0.id)),
                notes := db1.notes.filter (fun n => !(n.drawingVersionId == v0.id)),
                summaries := db1.summaries.filter (fun s => !(s.drawingVersionId == v0.id)),
                embeds := db1.embeds.filter (fun e => !(e.drawingVersionId == v0.id)) })
    | none =>
        let deactivated := db1.versions.map (fun w =>
          if w.drawingId == drawing.id && w.isActive then { w with isActive := false } else w)
        let v : VersionRow :=
          ⟨db1.nextId, drawing.id, a.documentId, true, a.sourceFilename, db1.clock⟩
        (v, { db1 with versions := deactivated ++ [v],
                       nextId := db1.nextId + 1, clock := db1.clock + 1 })
  let version := step2.1
  let db2 := step2.2
  -- 3. Register DrawingFiles
  let fileAdds : List FileRow :=
    ([("dwg", some a.dwgPath), ("dxf", some a.dxfPath), ("json", some a.jsonPath),
      ("pdf", a.pdfPath), ("png_full", a.pngPath), ("png_thumb", a.thumbnailPath)]
      ).filterMap (fun p =>
        p.2.map (fun q => FileRow.mk version.id p.1 q (guessMime p.1)))
  let db3 := { db2 with files := db2.files ++ fileAdds }
  -- 4. Parse JSON → Dimensions + Notes
  let dimRows := attachDims version.id db3.nextId (extractDims a.entities)
  let db4 := { db3 with dims := db3.dims ++ dimRows, nextId := db3.nextId + dimRows.length }
  let noteRows := attachNotes version.id db4.nextId (extractNotes a.entities)
  let db5 := { db4 with notes := db4.notes ++ noteRows, nextId := db4.nextId + noteRows.length }
  -- 5. Summary row
  let srow : SummaryRow := ⟨db5.nextId, version.id, a.summaryOut, "1.0"⟩
  let db6 := { db5 with summaries := db5.summaries ++ [srow], nextId := db5.nextId + 1 }
  -- 6. Embeddings
  let gen := generateAllEmbeddings provider db6 version.id srow
  let db7 := { db6 with embeds := db6.embeds ++ gen.1, nextId := db6.nextId + gen.1.length }
  -- 7. Commit
  (db7, ⟨drawing.id, version.id, dimRows.length, noteRows.length, some srow.id, gen.2⟩)

/-! ## Chat context assembly (`app/services/chat_drawing.py`)

The query embedding is computed once and enters the retrieval statements
only through the SQL cosine-similarity operator; that operator is modelled
as a per-row score function `sim : EmbedRow → ℚ`.  The answering model is
an oracle `chatModel : String → String → String`; the embedded function
returns, besides the response, the list of `(system_prompt, user_content)`
calls made to it. -/

/-- `ChatDrawingRequest`. -/
structure ChatDrawingRequest where
  userMessage : String
  documentId : Option String
  drawingVersionId : Option Nat
  maxSummaryChunks : Nat
  maxNoteChunks : Nat
  maxDimensionChunks : Nat
  deriving DecidableEq, Repr

/-- The possible outcomes of `_resolve_drawing_version_id`: a resolved
`(drawing_version_id, document_id)` pair, a raised `ValueError` (which the
chat router converts to HTTP 404), or the implicit `return None` reached
when neither reference is supplied — the caller then fails unpacking the
result with a `TypeError`. -/
inductive ResolveOutcome where
  | ok (versionId : Nat) (documentId : Option String)
  | valueError (msg : String)
  | noneReturned
  deriving DecidableEq, Repr

/-- `_resolve_drawing_version_id`: an explicit `drawing_version_id` wins;
otherwise a truthy `document_id` hash is resolved through the
`DrawingVersion ⋈ Drawing` join ordered by `ingested_at` descending,
taking the first row (the most recently ingested version, with no
`is_active` filter). -/
def resolveDrawingVersionId (db : DB) (req : ChatDrawingRequest) : ResolveOutcome :=
  match req.drawingVersionId with
  | some vid =>
      match db.versions.find? (fun v => v.id == vid) with
      | none => .valueError ("drawing_version_id=" ++ toString vid ++ " not found")
      | some dv =>
          let documentId :=
            match db.drawings.find? (fun d => d.id == dv.drawingId) with
            | some drawing =>
                if drawing.documentIdSha.isEmpty then none else some drawing.documentIdSha
            | none => none
          .ok dv.id documentId
  | none =>
      match req.documentId with
      | some h =>
          if h.isEmpty then .noneReturned
          else
            let joined := db.versions.filter (fun v =>
              (db.drawings.find? (fun d => d.id == v.drawingId)).any
                (fun d => d.documentIdSha == h))
            match sortByDesc (fun v => (v.ingestedAt : ℚ)) joined with
            | [] => .valueError ("No drawing version found for document_id=" ++ h)
            | v :: _ => .ok v.id (some h)
      | none => .noneReturned

/-- `_top_embeddings_for_type`: top-`limit` embeddings of one source type
for one version, ordered by cosine distance ascending (similarity
descending), paired with their similarity. -/
def topEmbeddingsForType (db : DB) (drawingVersionId : Nat) (sim : EmbedRow → ℚ)
    (sourceType : String) (limit : Nat) : List (EmbedRow × ℚ) :=
  if limit = 0 then []
  else
    ((sortByDesc sim (db.embeds.filter (fun e =>
        e.drawingVersionId == drawingVersionId && e.sourceType == sourceType))).take
      limit).map (fun e => (e, sim e))

/-- The geometry enrichment payload attached to a retrieved chunk. -/
inductive GeometryIndex where
  | dimension (dimensionId : Nat) (data : DimData)
  | note (noteId : Nat) (data : NoteData)
  deriving DecidableEq, Repr

/-- `RetrievedContextItem`. -/
structure RetrievedContextItem where
  chunkId : Nat
  sourceType : String
  drawingVersionId : Nat
  sourceRefId : Option Nat
  matchedText : String
  similarityScore : ℚ
  geometryIndex : Option GeometryIndex
  thumbnailUrl : Option String
  deriving DecidableEq, Repr

/-- `_build_retrieved_items`: enrich `(Embedding, similarity)` pairs with
the owning `Dimension`/`Note` row (when the reference resolves) and the
version's `png_thumb` file path. -/
def buildRetrievedItems (db : DB) (pairs : List (EmbedRow × ℚ)) :
    List RetrievedContextItem :=
  pairs.map (fun p =>
    let e := p.1
    let geometryIndex : Option GeometryIndex :=
      if e.sourceType == "dimension" then
        e.sourceRefId.bind (fun rid =>
          (db.dims.find? (fun d => d.id == rid)).map
            (fun d => .dimension d.id d.data))
      else if e.sourceType == "note" then
        e.sourceRefId.bind (fun rid =>
          (db.notes.find? (fun n => n.id == rid)).map
            (fun n => .note n.id n.data))
      else none
    { chunkId := e.id, sourceType := e.sourceType,
      drawingVersionId := e.drawingVersionId, sourceRefId := e.sourceRefId,
      matchedText := e.content, similarityScore := p.2,
      geometryIndex := geometryIndex,
      thumbnailUrl := (db.files.find? (fun f =>
        f.drawingVersionId == e.drawingVersionId && f.fileType == "png_thumb")).map
          (fun f => f.filePath) })

/-- The deterministic no-context fallback reply (step 3.5 of
`chat_with_drawing`). -/
def noContextReply (drawingVersionId : Nat) : String :=
  "I couldn’t find any summaries, notes, or dimensions associated with " ++
  "this drawing (drawing_version_id=" ++ toString drawingVersionId ++ "). " ++
  "It may not have been fully processed yet, or no extractable data was found."

/-- `ChatDrawingResponse`. -/
structure ChatDrawingResponse where
  assistantReply : String
  drawingVersionId : Nat
  documentId : Option String
  contexts : List RetrievedContextItem
  openInDocumentsUrl : Option String
  deriving DecidableEq, Repr

/-- The outcome of `chat_with_drawing`, together with the list of
`(system_prompt, user_content)` calls issued to the answering model. -/
inductive ChatOutcome where
  | ok (resp : ChatDrawingResponse) (modelCalls : List (String × String))
  | resolveError (msg : String)
  | typeError
  deriving DecidableEq, Repr

/-- `_build_context_text` (rendered context block). -/
def buildContextText (summaries notes dims : List RetrievedContextItem) : String :=
  let sLines := if summaries.isEmpty then []
    else "=== STRUCTURED / SUMMARY CONTEXT ===" ::
      summaries.map (fun s => "- [summary #" ++ toString s.chunkId ++ "] " ++ s.matchedText)
  let nLines := if notes.isEmpty then []
    else "\n=== NOTES / ANNOTATIONS ===" ::
      notes.map (fun n => "- [note #" ++ toString n.chunkId ++ "] " ++ n.matchedText)
  let dLines := if dims.isEmpty then []
    else "\n=== DIMENSIONS ===" ::
      dims.map (fun d =>
        let dimText := match d.geometryIndex with
          | some (.dimension _ dd) => if truthy dd.dimText then dd.dimText.getD "" else d.matchedText
          | _ => d.matchedText
        let dimValue : Option String := match d.geometryIndex with
          | some (.dimension _ dd) => dd.dimValue
          | _ => none
        match dimValue with
        | some v => "- [dim #" ++ toString d.chunkId ++ "] " ++ dimText ++ " = " ++ v
        | none => "- [dim #" ++ toString d.chunkId ++ "] " ++ dimText)
  String.intercalate "\n" (sLines ++ nLines ++ dLines)

/-- `_build_system_prompt` (fixed instruction text; abbreviated content,
constant as in the source). -/
def buildSystemPrompt : String :=
  "You are an expert mechanical design and manufacturing engineer... " ++
  "Base your answer strictly on the provided context. If critical information " ++
  "is missing, say what is missing instead of guessing."

/-- `chat_with_drawing`: resolve the version, run the three per-class
retrievals, enrich, short-circuit with the deterministic fallback when all
three are empty (no model call), otherwise delegate to the answering
model. -/
def chatWithDrawing (db : DB) (sim : EmbedRow → ℚ)
    (chatModel : String → String → String) (req : ChatDrawingRequest) : ChatOutcome :=
  match resolveDrawingVersionId db req with
  | .valueError m => .resolveError m
  | .noneReturned => .typeError
  | .ok drawingVersionId documentId =>
      let summaryPairs := topEmbeddingsForType db drawingVersionId sim "summary" req.maxSummaryChunks
      let notePairs := topEmbeddingsForType db drawingVersionId sim "note" req.maxNoteChunks
      let dimPairs := topEmbeddingsForType db drawingVersionId sim "dimension" req.maxDimensionChunks
      let summaryItems := buildRetrievedItems db summaryPairs
      let noteItems := buildRetrievedItems db notePairs
      let dimItems := buildRetrievedItems db dimPairs
      if summaryItems.isEmpty && noteItems.isEmpty && dimItems.isEmpty then
        .ok ⟨noContextReply drawingVersionId, drawingVersionId, documentId, [],
             some ("/documents/" ++ toString drawingVersionId)⟩ []
      else
        let contextText := buildContextText summaryItems noteItems dimItems
        let userContent := "User question:\n" ++ req.userMessage ++
          "\n\nDrawing context (summaries, notes, dimensions):\n" ++ contextText
        let reply := chatModel buildSystemPrompt userContent
        .ok ⟨reply, drawingVersionId, documentId,
             summaryItems ++ noteItems ++ dimItems,
             some ("/documents/" ++ toString drawingVersionId)⟩
           [(buildSystemPrompt, userContent)]

/-! ## Properties of the stable descending sort -/

theorem mem_insertDesc (key : α → ℚ) (a x : α) (l : List α) :
    x ∈ insertDesc key a l ↔ x = a ∨ x ∈ l := by
  induction l with
  | nil => simp [insertDesc]
  | cons b l ih =>
      by_cases h : key b < key a
      · simp [insertDesc, h]
      · simp [insertDesc, h, ih]
        tauto

theorem mem_sortByDesc (key : α → ℚ) (x : α) (l : List α) :
    x ∈ sortByDesc key l ↔ x ∈ l := by
  induction l with
  | nil => simp [sortByDesc]
  | cons a l ih => simp [sortByDesc, mem_insertDesc, ih]

theorem pairwise_insertDesc (key : α → ℚ) (a : α) (l : List α)
    (h : l.Pairwise (fun x y => key y ≤ key x)) :
    (insertDesc key a l).Pairwise (fun x y => key y ≤ key x) := by
  induction l with
  | nil => simp [insertDesc]
  | cons b l ih =>
      rcases List.pairwise_cons.mp h with ⟨hb, hl⟩
      by_cases hba : key b < key a
      · rw [insertDesc, if_pos hba]
        refine List.pairwise_cons.mpr ⟨?_, h⟩
        intro y hy
        rcases List.mem_cons.mp hy with rfl | hy
        · exact le_of_lt hba
        · exact le_trans (hb _ hy) (le_of_lt hba)
      · rw [insertDesc, if_neg hba]
        refine List.pairwise_cons.mpr ⟨?_, ih hl⟩
        intro y hy
        rcases (mem_insertDesc key a y l).mp hy with rfl | hy
        · exact le_of_not_lt hba
        · exact hb _ hy

theorem pairwise_sortByDesc (key : α → ℚ) (l : List α) :
    (sortByDesc key l).Pairwise (fun x y => key y ≤ key x) := by
  induction l with
  | nil => simp [sortByDesc]
  | cons a l ih => exact pairwise_insertDesc key a _ ih

theorem insertDesc_map (key : α → ℚ) (f : β → α) (b : β) (l : List β)
    (hk : ∀ x, key (f x) = key' x) :
    insertDesc key (f b) (l.map f) = (insertDesc key' b l).map f := by
  induction l with
  | nil => simp [insertDesc]
  | cons c l ih =>
      simp only [List.map_cons, insertDesc, hk b, hk c]
      by_cases h : key' c < key' b
      · simp [h]
      · simp [h, ih]

theorem sortByDesc_map (key : α → ℚ) (key' : β → ℚ) (f : β → α) (l : List β)
    (hk : ∀ x, key (f x) = key' x) :
    sortByDesc key (l.map f) = (sortByDesc key' l).map f := by
  induction l with
  | nil => simp [sortByDesc]
  | cons b l ih =>
      simp only [List.map_cons, sortByDesc, ih]
      exact insertDesc_map key f b _ hk

/-! ## C9 — empty-batch embedding -/

/-- C9: `embed_texts` called with an empty list of texts returns an empty
list and makes zero backend calls, in both the OpenAI and the Ollama
provider modes (the empty-batch short-circuit precedes even the Ollama
configuration check). -/
theorem embedTexts_empty_batch (mode : SecurityMode) (cfg : OllamaSettings)
    (openaiBackend : List String → List (List ℚ))
    (ollamaBackend : String → Option (List ℚ)) :
    embedTexts mode cfg openaiBackend ollamaBackend [] = (.ok [], 0) := by
  cases mode <;> rfl

/-! ## C2 — vector-width normalization is absent from `embed_texts` -/

/-- C2: the spec requires every vector returned by the embedding provider
abstraction to be padded/truncated to exactly `EMBEDDING_DIM = 1536`
components, but `embed_texts` returns the backend's vectors unchanged (the
dimension check in `_embed_openai` is a no-op `pass`): a backend vector of
length 800 comes back with length 800, not 1536 with 736 trailing zeros.
The pad/truncate logic exists only in `ai_providers.py`
(`EmbeddingProvider.embed_many`, the deprecated
`OpenAIEmbeddingProvider._normalize_embedding`), not on this live path. -/
theorem embedTexts_returns_backend_vectors_unnormalized :
    (embedTexts .notSecure ⟨none, none⟩ (fun _ => [List.replicate 800 (0 : ℚ)])
        (fun _ => none) ["x"]).1 = .ok [List.replicate 800 (0 : ℚ)] ∧
    (List.replicate 800 (0 : ℚ)).length = 800 ∧ EMBEDDING_DIM = 1536 := by
  refine ⟨rfl, ?_, rfl⟩
  rw [List.length_replicate]

/-! ## C4 — threshold filtering, top-K truncation, descending order -/

/-- C4: with any supplied score threshold in `[-1, 1]`, neither vector nor
hybrid search returns a result scoring below the threshold (similarity in
vector mode, fused score in hybrid mode); both return at most `top_k`
results, ordered by score descending. -/
theorem search_threshold_topk_ordering
    (vdb : List VecCand) (hdb : List HybridCand)
    (vreq : VectorSearchReq) (hreq : HybridSearchReq) (t u : ℚ)
    (hvt : vreq.scoreThreshold = some t) (hvt1 : -1 ≤ t) (hvt2 : t ≤ 1)
    (hht : hreq.scoreThreshold = some u) (hht1 : -1 ≤ u) (hht2 : u ≤ 1) :
    (∀ r ∈ vectorSearch vdb vreq, t ≤ r.similarityScore) ∧
    (vectorSearch vdb vreq).length ≤ vreq.topK ∧
    (vectorSearch vdb vreq).Pairwise
      (fun a b => b.similarityScore ≤ a.similarityScore) ∧
    (∀ r ∈ hybridSearch hdb hreq, u ≤ r.similarityScore) ∧
    (hybridSearch hdb hreq).length ≤ hreq.topK ∧
    (hybridSearch hdb hreq).Pairwise
      (fun a b => b.similarityScore ≤ a.similarityScore) := by
  refine ⟨?_, ?_, ?_, ?_, ?_, ?_⟩
  · intro r hr
    simp only [vectorSearch, hvt, List.mem_map, List.mem_filter] at hr
    obtain ⟨c, ⟨-, hc⟩, rfl⟩ := hr
    simp only [Bool.not_eq_eq_eq_not, Bool.not_true, decide_eq_false_iff_not,
      not_lt] at hc
    simpa [mkChunkResult] using hc
  · simp only [vectorSearch, List.length_map]
    exact le_trans (List.length_filter_le _ _)
      (le_trans (List.length_take_le _ _) le_rfl)
  · simp only [vectorSearch]
    refine List.Pairwise.map _ (fun a b h => ?_)
      (List.Pairwise.sublist
        ((List.filter_sublist _).trans (List.take_sublist _ _))
        (pairwise_sortByDesc (fun c => c.similarity) _))
    simpa [mkChunkResult] using h
  · intro r hr
    simp only [hybridSearch, fuseRank, hht, List.mem_map] at hr
    obtain ⟨p, hp, rfl⟩ := hr
    have hmem := List.take_subset _ _ hp
    have hkept := (mem_sortByDesc _ _ _).mp hmem
    have hc := (List.mem_filter.mp hkept).2
    simp only [Bool.not_eq_eq_eq_not, Bool.not_true, decide_eq_false_iff_not,
      not_lt] at hc
    simpa [mkChunkResult] using hc
  · simp only [hybridSearch, fuseRank, List.length_map]
    exact List.length_take_le _ _
  · simp only [hybridSearch, fuseRank]
    refine List.Pairwise.map _ (fun a b h => ?_)
      (List.Pairwise.sublist (List.take_sublist _ _)
        (pairwise_sortByDesc (fun q => q.2) _))
    simpa [mkChunkResult] using h

/-- C4 witness: the theorem instantiated at a one-candidate database and a
threshold of `0`. -/
theorem search_threshold_topk_ordering_witness :
    (∀ r ∈ vectorSearch
        [⟨⟨7, 1, "note", some 3, "±0.1", [1], "m"⟩, 1/2⟩]
        ⟨none, 5, some 0⟩, (0 : ℚ) ≤ r.similarityScore) ∧
    (vectorSearch [⟨⟨7, 1, "note", some 3, "±0.1", [1], "m"⟩, 1/2⟩]
        ⟨none, 5, some 0⟩).length ≤ 5 := by
  have h := search_threshold_topk_ordering
    [⟨⟨7, 1, "note", some 3, "±0.1", [1], "m"⟩, 1/2⟩] []
    ⟨none, 5, some 0⟩ ⟨none, 5, some 0, 7/10⟩ 0 0
    rfl (by norm_num) (by norm_num) rfl (by norm_num) (by norm_num)
  exact ⟨h.1, h.2.1⟩

/-! ## C5 — score fusion: endpoints and monotone interpolation -/

/-- C5: hybrid fusion computes `fused = alpha·vector + (1−alpha)·keyword`;
on a fixed candidate set the `alpha = 1` fuse-ranking coincides with the
pure-vector ranking and the `alpha = 0` fuse-ranking with the pure-keyword
ranking, and for `0 ≤ alpha ≤ beta ≤ 1` the fused score moves monotonically
between the keyword score and the vector score, always staying between
them. -/
theorem hybrid_fusion_endpoints_and_monotonicity :
    (∀ (thr : Option ℚ) (topK : Nat) (cands : List HybridCand),
       fuseRank 1 thr topK cands = pureVectorRank thr topK cands) ∧
    (∀ (thr : Option ℚ) (topK : Nat) (cands : List HybridCand),
       fuseRank 0 thr topK cands = pureKeywordRank thr topK cands) ∧
    (∀ (c : HybridCand) (a b : ℚ), 0 ≤ a → a ≤ b → b ≤ 1 →
       (c.keywordScore.getD 0 ≤ c.vectorScore →
          fusedScore a c ≤ fusedScore b c ∧
          c.keywordScore.getD 0 ≤ fusedScore a c ∧
          fusedScore a c ≤ c.vectorScore) ∧
       (c.vectorScore ≤ c.keywordScore.getD 0 →
          fusedScore b c ≤ fusedScore a c ∧
          c.vectorScore ≤ fusedScore a c ∧
          fusedScore a c ≤ c.keywordScore.getD 0)) := by
  refine ⟨?_, ?_, ?_⟩
  · intro thr topK cands
    have h1 : ∀ c : HybridCand, fusedScore 1 c = c.vectorScore := by
      intro c; simp [fusedScore]
    simp only [fuseRank, pureVectorRank, h1]
  · intro thr topK cands
    have h0 : ∀ c : HybridCand, fusedScore 0 c = c.keywordScore.getD 0 := by
      intro c; simp [fusedScore]
    simp only [fuseRank, pureKeywordRank, h0]
  · intro c a b ha hab hb1
    simp only [fusedScore]
    constructor <;> intro hkv <;> refine ⟨?_, ?_, ?_⟩ <;> nlinarith

/-- C5 witness: the theorem instantiated at a concrete candidate and
`a = 1/2`, `b = 3/4`. -/
theorem hybrid_fusion_endpoints_and_monotonicity_witness :
    fuseRank 1 none 3 [⟨⟨7, 1, "note", some 3, "±0.1", [1], "m"⟩, 1, some 0⟩] =
      pureVectorRank none 3 [⟨⟨7, 1, "note", some 3, "±0.1", [1], "m"⟩, 1, some 0⟩] ∧
    ((0 : ℚ) ≤ 1/2 ∧ (1/2 : ℚ) ≤ 3/4 ∧ (3/4 : ℚ) ≤ 1) ∧
    fusedScore (1/2) ⟨⟨7, 1, "note", some 3, "±0.1", [1], "m"⟩, 1, some 0⟩ ≤
      fusedScore (3/4) ⟨⟨7, 1, "note", some 3, "±0.1", [1], "m"⟩, 1, some 0⟩ := by
  refine ⟨hybrid_fusion_endpoints_and_monotonicity.1 none 3 _,
    ⟨by norm_num, by norm_num, by norm_num⟩, ?_⟩
  exact ((hybrid_fusion_endpoints_and_monotonicity.2.2
    ⟨⟨7, 1, "note", some 3, "±0.1", [1], "m"⟩, 1, some 0⟩ (1/2) (3/4)
    (by norm_num) (by norm_num) (by norm_num)).1 (by norm_num)).1

/-! ## C10 — SQL-NULL keyword similarity scores as zero -/

/-- `fusedScore` is unchanged by replacing a NULL keyword score with `0`. -/
theorem fusedScore_normalizeKeyword (alpha : ℚ) (c : HybridCand) :
    fusedScore alpha (normalizeKeyword c) = fusedScore alpha c := rfl

/-- `fuseRank` treats a candidate with NULL keyword score exactly like the
same candidate carrying keyword score `0`. -/
theorem fuseRank_map_normalizeKeyword (alpha : ℚ) (thr : Option ℚ) (topK : Nat)
    (cands : List HybridCand) :
    fuseRank alpha thr topK (cands.map normalizeKeyword) =
      (fuseRank alpha thr topK cands).map (Prod.map normalizeKeyword id) := by
  simp only [fuseRank, List.map_map]
  have hcomp : ((fun c => (c, fusedScore alpha c)) ∘ normalizeKeyword) =
      (Prod.map normalizeKeyword id) ∘
        (fun c : HybridCand => (c, fusedScore alpha c)) := by
    funext c
    simp [Function.comp, Prod.map, fusedScore_normalizeKeyword]
  rw [hcomp, ← List.map_map, List.filter_map]
  have hq : ((fun p : HybridCand × ℚ =>
      match thr with
      | none => true
      | some t => !(p.2 < t)) ∘ Prod.map normalizeKeyword id) =
      (fun p : HybridCand × ℚ =>
        match thr with
        | none => true
        | some t => !(p.2 < t)) := by
    funext p; rfl
  rw [hq, sortByDesc_map (fun p => p.2) (fun p => p.2)
    (Prod.map normalizeKeyword id) _ (fun x => rfl), ← List.map_take]

/-- C10: a hybrid-search candidate whose keyword/trigram similarity is SQL
NULL is scored with keyword score `0.0` — its fused score is
`alpha · vector_score` — and the whole hybrid search result is identical to
what it would be if the NULL were a stored `0.0`; such candidates are never
dropped merely for lacking a keyword score. -/
theorem hybrid_null_keyword_scored_as_zero :
    (∀ (alpha : ℚ) (c : HybridCand), c.keywordScore = none →
       fusedScore alpha c = alpha * c.vectorScore) ∧
    (∀ (db : List HybridCand) (req : HybridSearchReq),
       hybridSearch (db.map normalizeKeyword) req = hybridSearch db req) := by
  constructor
  · intro alpha c hc
    simp [fusedScore, hc]
  · intro db req
    simp only [hybridSearch]
    have h1 : (List.map normalizeKeyword db).filter
        (fun c => matchesFilters req.filters c.row) =
        (db.filter (fun c => matchesFilters req.filters c.row)).map
          normalizeKeyword := by
      rw [List.filter_map]; rfl
    rw [h1, ← List.map_take, fuseRank_map_normalizeKeyword, List.map_map]
    rfl

/-- C10 witness: a concrete NULL-keyword candidate fuses to
`alpha · vector_score`. -/
theorem hybrid_null_keyword_scored_as_zero_witness :
    fusedScore (1/2) ⟨⟨7, 1, "note", some 3, "±0.1", [1], "m"⟩, 1, none⟩ =
      (1/2 : ℚ) * 1 :=
  hybrid_null_keyword_scored_as_zero.1 (1/2)
    ⟨⟨7, 1, "note", some 3, "±0.1", [1], "m"⟩, 1, none⟩ rfl

/-! ## C6 — entity classification -/

/-- C6 counterexample: the claim states that every entity whose type
contains `"text"` produces a Note row, but the source checks `"dim"`
first (`if`/`elif`), so an entity of type `"DIMTEXT"` — whose lowered type
contains both `"dim"` and `"text"` — produces a Dimension row and no Note
row. -/
theorem classification_dimtext_no_note :
    strContains (lowerStr "DIMTEXT") "text" = true ∧
    extractNotes [⟨some "DIMTEXT", none, none, none, none, some "hello",
      none, none, none, none⟩] = [] ∧
    extractDims [⟨some "DIMTEXT", none, none, none, none, some "hello",
      none, none, none, none⟩] ≠ [] := by
  refine ⟨by decide, by decide, by decide⟩

/-- C6 (amended): classification is a case-insensitive substring rule on
the type field with `"dim"` taking precedence: a type containing `"dim"`
produces exactly one Dimension row preserving raw type, value, units and
geometry; otherwise a type containing `"text"` produces exactly one Note
row, sub-classified by scanning the lowered raw text — a tolerance marker
(`"±"`, `"tolerance"`, `"tol"`) gives `"tolerance"`, else a GD&T marker
(`"⌀"`, `"gd&t"`, `"true position"`, `"flatness"`) gives `"gdandt"`, else
`"general"`; an entity whose type contains neither substring produces no
row; and extraction is per-entity (it distributes over the entity list). -/
theorem entity_classification_rule (e : Entity) (es : List Entity) :
    (strContains (lowerStr (e.etype.getD "")) "dim" = true →
       extractDims [e] = [⟨e.index, e.etype, e.rawType, e.layer, e.handle,
         e.ownerHandle, e.text, e.value, e.units, e.geometry⟩] ∧
       extractNotes [e] = []) ∧
    (strContains (lowerStr (e.etype.getD "")) "dim" = false →
     strContains (lowerStr (e.etype.getD "")) "text" = true →
       extractDims [e] = [] ∧
       extractNotes [e] = [⟨e.index, inferNoteType e, e.text.getD "",
         e.layer, e.handle, e.geometry⟩]) ∧
    (strContains (lowerStr (e.etype.getD "")) "dim" = false →
     strContains (lowerStr (e.etype.getD "")) "text" = false →
       extractDims [e] = [] ∧ extractNotes [e] = []) ∧
    (containsAnyTok (lowerStr (e.text.getD "")) ["±", "tolerance", "tol"] = true →
       inferNoteType e = "tolerance") ∧
    (containsAnyTok (lowerStr (e.text.getD "")) ["±", "tolerance", "tol"] = false →
     containsAnyTok (lowerStr (e.text.getD ""))
       ["⌀", "gd&t", "true position", "flatness"] = true →
       inferNoteType e = "gdandt") ∧
    (containsAnyTok (lowerStr (e.text.getD "")) ["±", "tolerance", "tol"] = false →
     containsAnyTok (lowerStr (e.text.getD ""))
       ["⌀", "gd&t", "true position", "flatness"] = false →
       inferNoteType e = "general") ∧
    extractDims (e :: es) = extractDims [e] ++ extractDims es ∧
    extractNotes (e :: es) = extractNotes [e] ++ extractNotes es := by
  refine ⟨?_, ?_, ?_, ?_, ?_, ?_, ?_, ?_⟩
  · intro h
    constructor <;> simp [extractDims, extractNotes, classifyEntity, h]
  · intro h1 h2
    constructor <;> simp [extractDims, extractNotes, classifyEntity, h1, h2]
  · intro h1 h2
    constructor <;> simp [extractDims, extractNotes, classifyEntity, h1, h2]
  · intro h
    simp [inferNoteType, h]
  · intro h1 h2
    simp [inferNoteType, h1, h2]
  · intro h1 h2
    simp [inferNoteType, h1, h2]
  · rcases hce : classifyEntity e with _ | (d | n) <;>
      simp [extractDims, List.filterMap_cons, hce]
  · rcases hce : classifyEntity e with _ | (d | n) <;>
      simp [extractNotes, List.filterMap_cons, hce]

/-- C6 witness: a `TEXT` entity whose raw text carries `"±0.1"` yields one
`"tolerance"` Note and no Dimension. -/
theorem entity_classification_rule_witness :
    (strContains (lowerStr ((some "TEXT" : Option String).getD "")) "dim" = false ∧
     strContains (lowerStr ((some "TEXT" : Option String).getD "")) "text" = true) ∧
    extractDims [⟨some "TEXT", none, some "L1", some "H1", none, some "±0.1",
      none, none, none, some 4⟩] = [] ∧
    extractNotes [⟨some "TEXT", none, some "L1", some "H1", none, some "±0.1",
      none, none, none, some 4⟩] =
      [⟨some 4,
        inferNoteType ⟨some "TEXT", none, some "L1", some "H1", none,
          some "±0.1", none, none, none, some 4⟩,
        "±0.1", some "L1", some "H1", none⟩] ∧
    inferNoteType ⟨some "TEXT", none, some "L1", some "H1", none, some "±0.1",
      none, none, none, some 4⟩ = "tolerance" := by
  have h := (entity_classification_rule ⟨some "TEXT", none, some "L1", some "H1",
    none, some "±0.1", none, none, none, some 4⟩ []).2.1 (by decide) (by decide)
  exact ⟨⟨by decide, by decide⟩, h.1, h.2,
    (entity_classification_rule ⟨some "TEXT", none, some "L1", some "H1",
      none, some "±0.1", none, none, none, some 4⟩ []).2.2.2.1 (by decide)⟩

/-! ## C8 — no-context fallback skips the answering model -/

/-- C8: when the three per-class retrievals (summary, note, dimension) for
the resolved version all return zero hits, `chat_with_drawing` returns the
deterministic "no extractable context" reply with an empty context list and
issues no call to the answering-model collaborator. -/
theorem chat_no_context_fallback (db : DB) (sim : EmbedRow → ℚ)
    (chatModel : String → String → String) (req : ChatDrawingRequest)
    (vid : Nat) (docId : Option String)
    (hres : resolveDrawingVersionId db req = .ok vid docId)
    (hs : topEmbeddingsForType db vid sim "summary" req.maxSummaryChunks = [])
    (hn : topEmbeddingsForType db vid sim "note" req.maxNoteChunks = [])
    (hd : topEmbeddingsForType db vid sim "dimension" req.maxDimensionChunks = []) :
    chatWithDrawing db sim chatModel req =
      .ok ⟨noContextReply vid, vid, docId, [],
           some ("/documents/" ++ toString vid)⟩ [] := by
  simp [chatWithDrawing, hres, hs, hn, hd, buildRetrievedItems]

/-- C8 witness: a database holding one fully-resolvable version with no
embedding rows at all. -/
theorem chat_no_context_fallback_witness :
    chatWithDrawing ⟨[⟨0, "h"⟩], [⟨1, 0, "h", true, "part.dwg", 0⟩], [], [],
        [], [], [], 2, 1⟩ (fun _ => 0) (fun _ _ => "llm-reply")
      ⟨"what is the bore?", none, some 1, 3, 8, 12⟩ =
      .ok ⟨noContextReply 1, 1, some "h", [], some ("/documents/" ++ toString 1)⟩
        [] :=
  chat_no_context_fallback
    ⟨[⟨0, "h"⟩], [⟨1, 0, "h", true, "part.dwg", 0⟩], [], [], [], [], [], 2, 1⟩
    (fun _ => 0) (fun _ _ => "llm-reply")
    ⟨"what is the bore?", none, some 1, 3, 8, 12⟩ 1 (some "h")
    (by decide) (by decide) (by decide) (by decide)

/-! ## C7 — resolving a version reference for chat -/

/-- C7 counterexample: (i) a document hash is resolved to the *most
recently ingested* version of that document, with no `is_active` filter —
on a document whose active version (id 1) is older than an inactive one
(id 2), the resolver returns version 2; (ii) when neither a version id nor
a document hash is supplied, `_resolve_drawing_version_id` falls through
and returns `None` (the caller's tuple unpacking then raises `TypeError`),
rather than raising the NotFound-style `ValueError`. -/
theorem resolve_version_counterexample :
    (resolveDrawingVersionId
        ⟨[⟨0, "h"⟩], [⟨1, 0, "h", true, "a.dwg", 0⟩, ⟨2, 0, "h2", false, "b.dwg", 5⟩],
         [], [], [], [], [], 3, 6⟩
        ⟨"q", some "h", none, 3, 8, 12⟩ = .ok 2 (some "h") ∧
      (([⟨1, 0, "h", true, "a.dwg", 0⟩, ⟨2, 0, "h2", false, "b.dwg", 5⟩] :
          List VersionRow).filter (fun v => v.isActive)).map (fun v => v.id) = [1]) ∧
    resolveDrawingVersionId db0 ⟨"q", none, none, 3, 8, 12⟩ = .noneReturned := by
  refine ⟨⟨by decide, by decide⟩, by decide⟩

/-- C7 (amended): chat context assembly accepts an explicit version id or a
document content hash.  A version id that does not exist and a non-empty
document hash owning no version each raise a `ValueError` (mapped by the
chat router to HTTP 404 NotFound); a document hash that does resolve is
resolved to the *most recently ingested* version of that document (not
necessarily the active one); and when neither reference is supplied (or the
hash is empty, hence falsy) the resolver returns `None`, which makes the
caller fail with a `TypeError` instead of a NotFound error. -/
theorem resolve_version_characterization (db : DB) (req : ChatDrawingRequest) :
    (req.drawingVersionId = none →
     (req.documentId = none ∨ req.documentId = some "") →
       resolveDrawingVersionId db req = .noneReturned) ∧
    (∀ vid, req.drawingVersionId = some vid →
       db.versions.find? (fun v => v.id == vid) = none →
       ∃ m, resolveDrawingVersionId db req = .valueError m) ∧
    (∀ h, req.drawingVersionId = none → req.documentId = some h →
       ¬ h.isEmpty = true →
       db.versions.filter (fun v =>
         (db.drawings.find? (fun d => d.id == v.drawingId)).any
           (fun d => d.documentIdSha == h)) = [] →
       ∃ m, resolveDrawingVersionId db req = .valueError m) ∧
    (∀ h vid docId, req.drawingVersionId = none → req.documentId = some h →
       resolveDrawingVersionId db req = .ok vid docId →
       docId = some h ∧
       ∃ v ∈ db.versions.filter (fun v =>
           (db.drawings.find? (fun d => d.id == v.drawingId)).any
             (fun d => d.documentIdSha == h)),
         v.id = vid ∧
         ∀ w ∈ db.versions.filter (fun v =>
             (db.drawings.find? (fun d => d.id == v.drawingId)).any
               (fun d => d.documentIdSha == h)),
           w.ingestedAt ≤ v.ingestedAt) := by
  refine ⟨?_, ?_, ?_, ?_⟩
  · intro h1 h2
    have hemp : "".isEmpty = true := rfl
    rcases h2 with h2 | h2 <;> simp [resolveDrawingVersionId, h1, h2, hemp]
  · intro vid h1 h2
    refine ⟨"drawing_version_id=" ++ toString vid ++ " not found", ?_⟩
    simp [resolveDrawingVersionId, h1, h2]
  · intro h h1 h2 h3 h4
    refine ⟨"No drawing version found for document_id=" ++ h, ?_⟩
    simp only [resolveDrawingVersionId, h1, h2, h4]
    simp [sortByDesc, h3]
  · intro h vid docId h1 h2 hok
    simp only [resolveDrawingVersionId, h1, h2] at hok
    by_cases hemp : h.isEmpty
    · simp [hemp] at hok
    · simp only [hemp, Bool.false_eq_true, if_false] at hok
      rcases hsort : sortByDesc (fun v => (v.ingestedAt : ℚ))
          (db.versions.filter (fun v =>
            (db.drawings.find? (fun d => d.id == v.drawingId)).any
              (fun d => d.documentIdSha == h))) with _ | ⟨v, rest⟩
      · rw [hsort] at hok
        simp at hok
      · rw [hsort] at hok
        simp only [ResolveOutcome.ok.injEq] at hok
        obtain ⟨hv, hdoc⟩ := hok
        refine ⟨hdoc.symm, v, ?_, hv.symm ▸ rfl, ?_⟩
        · have : v ∈ sortByDesc (fun v => (v.ingestedAt : ℚ))
              (db.versions.filter (fun v =>
                (db.drawings.find? (fun d => d.id == v.drawingId)).any
                  (fun d => d.documentIdSha == h))) := by
            rw [hsort]; exact List.mem_cons_self _ _
          exact (mem_sortByDesc _ _ _).mp this
        · intro w hw
          have hwmem : w ∈ sortByDesc (fun v => (v.ingestedAt : ℚ))
              (db.versions.filter (fun v =>
                (db.drawings.find? (fun d => d.id == v.drawingId)).any
                  (fun d => d.documentIdSha == h))) :=
            (mem_sortByDesc _ _ _).mpr hw
          rw [hsort] at hwmem
          rcases List.mem_cons.mp hwmem with rfl | hwr
          · exact le_rfl
          · have hpw := pairwise_sortByDesc (fun v => (v.ingestedAt : ℚ))
              (db.versions.filter (fun v =>
                (db.drawings.find? (fun d => d.id == v.drawingId)).any
                  (fun d => d.documentIdSha == h)))
            rw [hsort] at hpw
            have := (List.pairwise_cons.mp hpw).1 w hwr
            exact_mod_cast this

/-- C7 witness: with neither reference supplied the resolver returns
`None` (caller `TypeError`), not a NotFound error. -/
theorem resolve_version_characterization_witness :
    resolveDrawingVersionId db0 ⟨"q", none, none, 3, 8, 12⟩ =
      ResolveOutcome.noneReturned :=
  (resolve_version_characterization db0 ⟨"q", none, none, 3, 8, 12⟩).1 rfl
    (Or.inl rfl)

/-! ## ETL helper lemmas -/

theorem attachDims_length (vid : Nat) (n : Nat) (l : List DimData) :
    (attachDims vid n l).length = l.length := by
  induction l generalizing n with
  | nil => rfl
  | cons d l ih => simp [attachDims, ih]

theorem attachNotes_length (vid : Nat) (n : Nat) (l : List NoteData) :
    (attachNotes vid n l).length = l.length := by
  induction l generalizing n with
  | nil => rfl
  | cons d l ih => simp [attachNotes, ih]

theorem attachDims_filter_self (vid n : Nat) (l : List DimData) :
    (attachDims vid n l).filter (fun d => d.drawingVersionId == vid) =
      attachDims vid n l := by
  induction l generalizing n with
  | nil => rfl
  | cons d l ih => simp [attachDims, List.filter_cons, ih]

theorem attachNotes_filter_self (vid n : Nat) (l : List NoteData) :
    (attachNotes vid n l).filter (fun d => d.drawingVersionId == vid) =
      attachNotes vid n l := by
  induction l generalizing n with
  | nil => rfl
  | cons d l ih => simp [attachNotes, List.filter_cons, ih]

theorem attachDims_filter_ne (vid n : Nat) (l : List DimData) :
    (attachDims vid n l).filter (fun d => !(d.drawingVersionId == vid)) = [] := by
  induction l generalizing n with
  | nil => rfl
  | cons d l ih => simp [attachDims, List.filter_cons, ih]

theorem attachNotes_filter_ne (vid n : Nat) (l : List NoteData) :
    (attachNotes vid n l).filter (fun d => !(d.drawingVersionId == vid)) = [] := by
  induction l generalizing n with
  | nil => rfl
  | cons d l ih => simp [attachNotes, List.filter_cons, ih]

theorem mkEmbedRows_length (vid : Nat) (n : Nat) (ps : List Piece)
    (vs : List (List ℚ)) :
    (mkEmbedRows vid n ps vs).length = min ps.length vs.length := by
  induction ps generalizing n vs with
  | nil => simp [mkEmbedRows]
  | cons p ps ih =>
      cases vs with
      | nil => simp [mkEmbedRows]
      | cons v vs =>
          simp [mkEmbedRows, ih, Nat.succ_min_succ]

theorem mkEmbedRows_filter_ne (vid n : Nat) (ps : List Piece)
    (vs : List (List ℚ)) :
    (mkEmbedRows vid n ps vs).filter (fun e => !(e.drawingVersionId == vid)) = [] := by
  induction ps generalizing n vs with
  | nil => simp [mkEmbedRows]
  | cons p ps ih =>
      cases vs with
      | nil => simp [mkEmbedRows]
      | cons v vs => simp [mkEmbedRows, List.filter_cons, ih]

theorem generateAllEmbeddings_length (provider : List String → List (List ℚ))
    (db : DB) (vid : Nat) (srow : SummaryRow) :
    (generateAllEmbeddings provider db vid srow).1.length =
      (generateAllEmbeddings provider db vid srow).2 := by
  simp only [generateAllEmbeddings]
  split
  · rfl
  · split
    · rfl
    · rename_i hne
      simp only [mkEmbedRows_length]
      omega

theorem generateAllEmbeddings_filter_ne (provider : List String → List (List ℚ))
    (db : DB) (vid : Nat) (srow : SummaryRow) :
    (generateAllEmbeddings provider db vid srow).1.filter
      (fun e => !(e.drawingVersionId == vid)) = [] := by
  simp only [generateAllEmbeddings]
  split
  · rfl
  · split
    · rfl
    · exact mkEmbedRows_filter_ne _ _ _ _

theorem dimPieces_texts (vid : Nat) (l : List DimData) (n : Nat) :
    ((attachDims vid n l).filterMap (fun d =>
        let t := dimChunkText d.data
        if t.isEmpty then none else some (Piece.mk "dimension" d.id t))).map
      (fun p => p.text) =
    l.filterMap (fun dd =>
      if (dimChunkText dd).isEmpty then none else some (dimChunkText dd)) := by
  induction l generalizing n with
  | nil => rfl
  | cons d l ih =>
      by_cases hd : (dimChunkText d).isEmpty = true <;>
        simp [attachDims, List.filterMap_cons, hd, ih]

theorem notePieces_texts (vid : Nat) (l : List NoteData) (n : Nat) :
    ((attachNotes vid n l).filterMap (fun nr =>
        if truthy (some nr.data.text) then
          if truthy (some (stripStr nr.data.text)) then
            some (Piece.mk "note" nr.id (stripStr nr.data.text))
          else none
        else none)).map (fun p => p.text) =
    l.filterMap (fun nd =>
      if truthy (some nd.text) then
        if truthy (some (stripStr nd.text)) then some (stripStr nd.text)
        else none
      else none) := by
  induction l generalizing n with
  | nil => rfl
  | cons d l ih =>
      cases hd1 : truthy (some d.text) <;>
        cases hd2 : truthy (some (stripStr d.text)) <;>
          simp [attachNotes, List.filterMap_cons, hd1, hd2, ih]

theorem contentPieces_texts (s1 s2 : SummaryRow) (hs : s1.data = s2.data)
    (vid1 n1 vid2 n2 vid3 m1 vid4 m2 : Nat) (l : List DimData)
    (k : List NoteData) :
    (contentPieces s1 (attachDims vid1 n1 l) (attachNotes vid3 m1 k)).map
      (fun p => p.text) =
    (contentPieces s2 (attachDims vid2 n2 l) (attachNotes vid4 m2 k)).map
      (fun p => p.text) := by
  simp only [contentPieces, List.map_append, hs]
  rw [dimPieces_texts, dimPieces_texts, notePieces_texts, notePieces_texts]
  by_cases h1 : truthy (some s2.data.longFormDescription) = true <;>
    by_cases h2 : truthy s2.data.shortDescription = true <;>
      simp [h1, h2]

theorem generateAllEmbeddings_count_congr (provider : List String → List (List ℚ))
    (db db' : DB) (vid vid' : Nat) (s s' : SummaryRow)
    (h : (contentPieces s (db.dims.filter (fun d => d.drawingVersionId == vid))
            (db.notes.filter (fun n => n.drawingVersionId == vid))).map
          (fun p => p.text) =
         (contentPieces s' (db'.dims.filter (fun d => d.drawingVersionId == vid'))
            (db'.notes.filter (fun n => n.drawingVersionId == vid'))).map
          (fun p => p.text)) :
    (generateAllEmbeddings provider db vid s).2 =
      (generateAllEmbeddings provider db' vid' s').2 := by
  have hlen : (contentPieces s (db.dims.filter (fun d => d.drawingVersionId == vid))
      (db.notes.filter (fun n => n.drawingVersionId == vid))).length =
      (contentPieces s' (db'.dims.filter (fun d => d.drawingVersionId == vid'))
        (db'.notes.filter (fun n => n.drawingVersionId == vid'))).length := by
    rw [← List.length_map _ (fun p : Piece => p.text), h, List.length_map]
  have hie : (contentPieces s (db.dims.filter (fun d => d.drawingVersionId == vid))
      (db.notes.filter (fun n => n.drawingVersionId == vid))).isEmpty =
      (contentPieces s' (db'.dims.filter (fun d => d.drawingVersionId == vid'))
        (db'.notes.filter (fun n => n.drawingVersionId == vid'))).isEmpty := by
    rcases hp : contentPieces s (db.dims.filter (fun d => d.drawingVersionId == vid))
        (db.notes.filter (fun n => n.drawingVersionId == vid)) with _ | ⟨x, xs⟩ <;>
      rcases hp' : contentPieces s' (db'.dims.filter (fun d => d.drawingVersionId == vid'))
          (db'.notes.filter (fun n => n.drawingVersionId == vid')) with _ | ⟨y, ys⟩ <;>
        simp_all
  simp only [generateAllEmbeddings]
  rw [hie, h, hlen]
  split
  · rfl
  · split
    · rfl
    · rfl

/-! ## C1 — embedding count mismatch -/

/-- C1 counterexample: with a provider returning a wrong vector count, the
ETL run does not abort: `_generate_all_embeddings` logs a warning and
returns 0, and `run_drawing_etl` completes normally, committing the
extracted note and the summary with zero embedding rows. -/
theorem etl_count_mismatch_not_fatal :
    (runDrawingEtl (fun _ => []) db0
      ⟨"h", "f.dwg",
       [⟨some "TEXT", none, none, none, none, some "NOTE A", none, none, none, some 0⟩],
       ⟨"S", "long form", none, "gpt"⟩, "a.dwg", "a.dxf", "a.json",
       none, none, none⟩).2.numEmbeddings = 0 ∧
    (runDrawingEtl (fun _ => []) db0
      ⟨"h", "f.dwg",
       [⟨some "TEXT", none, none, none, none, some "NOTE A", none, none, none, some 0⟩],
       ⟨"S", "long form", none, "gpt"⟩, "a.dwg", "a.dxf", "a.json",
       none, none, none⟩).1.embeds = [] ∧
    (runDrawingEtl (fun _ => []) db0
      ⟨"h", "f.dwg",
       [⟨some "TEXT", none, none, none, none, some "NOTE A", none, none, none, some 0⟩],
       ⟨"S", "long form", none, "gpt"⟩, "a.dwg", "a.dxf", "a.json",
       none, none, none⟩).2.numNotes = 1 ∧
    (runDrawingEtl (fun _ => []) db0
      ⟨"h", "f.dwg",
       [⟨some "TEXT", none, none, none, none, some "NOTE A", none, none, none, some 0⟩],
       ⟨"S", "long form", none, "gpt"⟩, "a.dwg", "a.dxf", "a.json",
       none, none, none⟩).1.notes.length = 1 ∧
    (runDrawingEtl (fun _ => []) db0
      ⟨"h", "f.dwg",
       [⟨some "TEXT", none, none, none, none, some "NOTE A", none, none, none, some 0⟩],
       ⟨"S", "long form", none, "gpt"⟩, "a.dwg", "a.dxf", "a.json",
       none, none, none⟩).1.summaries.length = 1 := by
  refine ⟨by decide, by decide, by decide, by decide, by decide⟩

/-- When the provider's vector count cannot match, `_generate_all_embeddings`
returns no rows and count `0` (it does not raise). -/
theorem generateAllEmbeddings_mismatch (provider : List String → List (List ℚ))
    (db : DB) (vid : Nat) (srow : SummaryRow)
    (hp : ∀ ts : List String, ts ≠ [] → (provider ts).length ≠ ts.length) :
    generateAllEmbeddings provider db vid srow = ([], 0) := by
  simp only [generateAllEmbeddings]
  split
  · rfl
  · rename_i hne
    rw [if_pos]
    have hnil : (contentPieces srow
        (db.dims.filter (fun d => d.drawingVersionId == vid))
        (db.notes.filter (fun n => n.drawingVersionId == vid))).map
          (fun p => p.text) ≠ [] := by
      simp only [ne_eq, List.map_eq_nil_iff]
      intro hc
      rw [hc] at hne
      exact hne rfl
    have := hp _ hnil
    simpa using this

/-- C1 (amended): if the embedding provider returns a vector count different
from the worklist length, the ETL run persists no embeddings at all for
that version (no partial embedding set; `embeddings_created = 0`), logs a
warning, and otherwise completes: dimensions, notes and the summary are
still inserted and committed, and no count-mismatch failure is raised. -/
theorem etl_count_mismatch_skips_embeddings
    (provider : List String → List (List ℚ)) (db : DB) (a : EtlArgs)
    (hp : ∀ ts : List String, ts ≠ [] → (provider ts).length ≠ ts.length) :
    (runDrawingEtl provider db a).2.numEmbeddings = 0 ∧
    (∀ e ∈ (runDrawingEtl provider db a).1.embeds, e ∈ db.embeds) ∧
    (runDrawingEtl provider db a).2.numDimensions =
      (extractDims a.entities).length ∧
    (runDrawingEtl provider db a).2.numNotes = (extractNotes a.entities).length ∧
    (runDrawingEtl provider db a).2.summaryId.isSome = true := by
  unfold runDrawingEtl
  rcases hfd : db.drawings.find? (fun d => d.documentIdSha == a.documentId) with
    _ | d <;>
    rcases hfv : db.versions.find? (fun v => v.dwgSha256 == a.documentId) with
      _ | v0 <;>
    simp only [hfd, hfv, generateAllEmbeddings_mismatch provider _ _ _ hp,
      attachDims_length, attachNotes_length, List.append_nil, List.length_nil,
      Nat.add_zero, Option.isSome_some, and_true, List.mem_filter] <;>
    refine ⟨trivial, fun e he => ?_⟩ <;>
    first
    | exact he
    | exact he.1

/-- C1 witness: a provider returning no vectors satisfies the mismatch
hypothesis, and the run persists one note, one summary, zero embeddings. -/
theorem etl_count_mismatch_skips_embeddings_witness :
    (runDrawingEtl (fun _ => []) db0
      ⟨"h2", "g.dwg",
       [⟨some "TEXT", none, none, none, none, some "NOTE B", none, none, none, some 0⟩],
       ⟨"S", "long form", none, "gpt"⟩, "b.dwg", "b.dxf", "b.json",
       none, none, none⟩).2.numEmbeddings = 0 ∧
    (runDrawingEtl (fun _ => []) db0
      ⟨"h2", "g.dwg",
       [⟨some "TEXT", none, none, none, none, some "NOTE B", none, none, none, some 0⟩],
       ⟨"S", "long form", none, "gpt"⟩, "b.dwg", "b.dxf", "b.json",
       none, none, none⟩).2.numNotes =
      (extractNotes
        [⟨some "TEXT", none, none, none, none, some "NOTE B", none, none, none,
          some 0⟩]).length := by
  have h := etl_count_mismatch_skips_embeddings (fun _ => []) db0
    ⟨"h2", "g.dwg",
     [⟨some "TEXT", none, none, none, none, some "NOTE B", none, none, none, some 0⟩],
     ⟨"S", "long form", none, "gpt"⟩, "b.dwg", "b.dxf", "b.json",
     none, none, none⟩
    (fun ts hts => by
      cases ts with
      | nil => exact absurd rfl hts
      | cons t ts => simp)
  exact ⟨h.1, h.2.2.2.1⟩

/-! ## C3 — idempotent re-ingestion and the active-version invariant -/

/-- C3 counterexample: `run_drawing_etl` keys both the `Drawing`
(`document_id_sha`) and the `DrawingVersion` (`dwg_sha256`) by the same
content hash, so ingesting two distinct hashes never yields two versions of
one document: it creates two Documents, each with its own version, and both
versions stay active (2 active rows, not 1) — the prior active version is
never deactivated. -/
theorem etl_two_hashes_two_documents :
    (runDrawingEtl (fun ts => ts.map (fun _ => [0]))
        (runDrawingEtl (fun ts => ts.map (fun _ => [0])) db0
          ⟨"h1", "a.dwg", [], ⟨"S", "long", none, "m"⟩, "a.dwg", "a.dxf",
           "a.json", none, none, none⟩).1
        ⟨"h2", "b.dwg", [], ⟨"S", "long", none, "m"⟩, "b.dwg", "b.dxf",
         "b.json", none, none, none⟩).1.drawings.length = 2 ∧
    ((runDrawingEtl (fun ts => ts.map (fun _ => [0]))
        (runDrawingEtl (fun ts => ts.map (fun _ => [0])) db0
          ⟨"h1", "a.dwg", [], ⟨"S", "long", none, "m"⟩, "a.dwg", "a.dxf",
           "a.json", none, none, none⟩).1
        ⟨"h2", "b.dwg", [], ⟨"S", "long", none, "m"⟩, "b.dwg", "b.dxf",
         "b.json", none, none, none⟩).1.versions.filter
      (fun v => v.isActive)).length = 2 := by
  exact ⟨by decide, by decide⟩

set_option maxHeartbeats 1600000 in
set_option maxHeartbeats 1600000 in
/-- C3 (amended): starting from an empty store, (i) running the ETL twice
with the identical content hash yields identical dimension/note/embedding
counts, replaces rather than duplicates the derived rows (the final store
holds exactly the second run's rows: as many dimension/note/embedding rows
as the counts report and one summary), keeps exactly one version row for
that hash, and leaves exactly one active version; (ii) ingesting two
distinct hashes produces two Documents (the code keys Document and version
by the same hash), two version rows — both active, one per document — and
the prior version row is neither deleted nor deactivated. -/
theorem etl_idempotence_and_single_active
    (provider : List String → List (List ℚ)) (a a2 : EtlArgs)
    (hne : a.documentId ≠ a2.documentId) :
    ((runDrawingEtl provider (runDrawingEtl provider db0 a).1 a).2.numDimensions =
        (runDrawingEtl provider db0 a).2.numDimensions ∧
     (runDrawingEtl provider (runDrawingEtl provider db0 a).1 a).2.numNotes =
        (runDrawingEtl provider db0 a).2.numNotes ∧
     (runDrawingEtl provider (runDrawingEtl provider db0 a).1 a).2.numEmbeddings =
        (runDrawingEtl provider db0 a).2.numEmbeddings ∧
     (runDrawingEtl provider (runDrawingEtl provider db0 a).1 a).1.dims.length =
        (runDrawingEtl provider (runDrawingEtl provider db0 a).1 a).2.numDimensions ∧
     (runDrawingEtl provider (runDrawingEtl provider db0 a).1 a).1.notes.length =
        (runDrawingEtl provider (runDrawingEtl provider db0 a).1 a).2.numNotes ∧
     (runDrawingEtl provider (runDrawingEtl provider db0 a).1 a).1.embeds.length =
        (runDrawingEtl provider (runDrawingEtl provider db0 a).1 a).2.numEmbeddings ∧
     (runDrawingEtl provider (runDrawingEtl provider db0 a).1 a).1.summaries.length = 1 ∧
     ((runDrawingEtl provider (runDrawingEtl provider db0 a).1 a).1.versions.filter
        (fun v => v.dwgSha256 == a.documentId)).length = 1 ∧
     ((runDrawingEtl provider (runDrawingEtl provider db0 a).1 a).1.versions.filter
        (fun v => v.isActive)).length = 1) ∧
    ((runDrawingEtl provider (runDrawingEtl provider db0 a).1 a2).1.drawings.length = 2 ∧
     (runDrawingEtl provider (runDrawingEtl provider db0 a).1 a2).1.versions.length = 2 ∧
     ((runDrawingEtl provider (runDrawingEtl provider db0 a).1 a2).1.versions.filter
        (fun v => v.isActive)).length = 2 ∧
     ((runDrawingEtl provider (runDrawingEtl provider db0 a).1 a2).1.versions.filter
        (fun v => v.dwgSha256 == a.documentId)).length = 1 ∧
     (∀ d ∈ (runDrawingEtl provider (runDrawingEtl provider db0 a).1 a2).1.drawings,
        ((runDrawingEtl provider (runDrawingEtl provider db0 a).1 a2).1.versions.filter
          (fun v => v.drawingId == d.id && v.isActive)).length = 1)) := by
  have hss : (a.documentId == a2.documentId) = false :=
    beq_eq_false_iff_ne.mpr hne
  have h0N : ∀ x y z : Nat, ((0 : Nat) == 2 + x + y + 1 + z) = false := by
    intro x y z
    rw [beq_eq_false_iff_ne]
    omega
  have h0N2 : ∀ x y z : Nat, ¬((0 : Nat) = 2 + x + y + 1 + z) := by
    intro x y z
    omega
  constructor
  · refine ⟨?_, ?_, ?_, ?_, ?_, ?_, ?_, ?_, ?_⟩ <;>
      simp [runDrawingEtl, db0, attachDims_length, attachNotes_length,
        attachDims_filter_ne, attachNotes_filter_ne,
        attachDims_filter_self, attachNotes_filter_self,
        generateAllEmbeddings_filter_ne, generateAllEmbeddings_length]
    refine generateAllEmbeddings_count_congr provider _ _ 1 1 _ _ ?_
    simp only [attachDims_filter_self, attachNotes_filter_self]
    refine contentPieces_texts _ _ ?_ _ _ _ _ _ _ _ _ _ _
    rfl
  · refine ⟨?_, ?_, ?_, ?_, ?_⟩ <;>
      simp [runDrawingEtl, db0, hss, h0N, h0N2, attachDims_length,
        attachNotes_length]
    exact fun hcon => hne hcon.symm

/-- C3 witness: the theorem instantiated at two concrete distinct hashes
with a well-behaved provider. -/
theorem etl_idempotence_and_single_active_witness :
    (runDrawingEtl (fun ts => ts.map (fun _ => [0]))
        (runDrawingEtl (fun ts => ts.map (fun _ => [0])) db0
          ⟨"h1", "a.dwg", [], ⟨"S", "long", none, "m"⟩, "a.dwg", "a.dxf",
           "a.json", none, none, none⟩).1
        ⟨"h1", "a.dwg", [], ⟨"S", "long", none, "m"⟩, "a.dwg", "a.dxf",
         "a.json", none, none, none⟩).2.numEmbeddings =
      (runDrawingEtl (fun ts => ts.map (fun _ => [0])) db0
        ⟨"h1", "a.dwg", [], ⟨"S", "long", none, "m"⟩, "a.dwg", "a.dxf",
         "a.json", none, none, none⟩).2.numEmbeddings ∧
    ((runDrawingEtl (fun ts => ts.map (fun _ => [0]))
        (runDrawingEtl (fun ts => ts.map (fun _ => [0])) db0
          ⟨"h1", "a.dwg", [], ⟨"S", "long", none, "m"⟩, "a.dwg", "a.dxf",
           "a.json", none, none, none⟩).1
        ⟨"h2", "b.dwg", [], ⟨"S", "long", none, "m"⟩, "b.dwg", "b.dxf",
         "b.json", none, none, none⟩).1.versions.filter
      (fun v => v.isActive)).length = 2 := by
  have h := etl_idempotence_and_single_active (fun ts => ts.map (fun _ => [0]))
    ⟨"h1", "a.dwg", [], ⟨"S", "long", none, "m"⟩, "a.dwg", "a.dxf", "a.json",
     none, none, none⟩
    ⟨"h2", "b.dwg", [], ⟨"S", "long", none, "m"⟩, "b.dwg", "b.dxf", "b.json",
     none, none, none⟩
    (by decide)
  exact ⟨h.1.2.2.1, h.2.2.2.1⟩

end CadSentinel
